import Mathlib

/- Shallow embedding of src/src/example.ts: the two wrapper classes
   `Result` and `Option`. JavaScript runtime values, as far as the wrappers
   inspect them, are modelled by the inductive `JSValue`; a thrown
   `new Error(msg)` is modelled as `JSError`; getters that may throw return
   `Except JSError _`. The `message` getter of `Result` evaluates
   `!this.message` (the getter itself) in its guard, so it is modelled with
   an explicit fuel argument standing for the remaining JS call-stack depth:
   a `none` outcome means the call never returns (stack overflow). -/

/-- A JavaScript runtime value as far as the wrappers discriminate them:
the two absent sentinels, booleans, numbers, strings, and reference values
(objects and arrays, kept opaque: the wrappers never look inside them, and
every reference value is truthy and non-absent). -/
inductive JSValue where
  | undef
  | null
  | bool (b : Bool)
  | num (n : Int)
  | str (s : String)
  | obj (id : Nat)
  deriving DecidableEq, Repr

/-- JavaScript truthiness of a value, as used by the `!x` guards in the
source (`!this.#payload`, `!this.#error`): `undefined`, `null`, `false`,
`0` and `""` are falsy, everything else here is truthy. -/
def JSValue.truthy : JSValue → Bool
  | .undef => false
  | .null => false
  | .bool b => b
  | .num n => n != 0
  | .str s => s != ""
  | .obj _ => true

/-- The absent-equivalent check of the `Option` constructor:
`typeof payload !== 'undefined' && payload !== null` negated, i.e. a value
is absent exactly when it is `undefined` or `null`. -/
def JSValue.isAbsent : JSValue → Bool
  | .undef => true
  | .null => true
  | _ => false

/-- A thrown `new Error(msg)`: only the message is observable here. -/
structure JSError where
  message : String
  deriving DecidableEq, Repr

/-- The argument object of the `Result` constructor. Each field is `some v`
when the property is present on the object (the `'payload' in args` /
`'error' in args` / `'message' in args` checks) and `none` when absent.
A property present with value `undefined` is modelled as
`some JSValue.undef`, matching the JS `in` operator. -/
structure ResultArgs where
  payload? : Option JSValue
  error? : Option JSValue
  message? : Option String
  deriving DecidableEq, Repr

/-- The private fields of a constructed `Result` instance, with their
declared initial values: `#isOK = false`, `#payload` and `#error`
`undefined`, `#message = ''`. -/
structure ResultState where
  isOK : Bool
  payload : JSValue
  error : JSValue
  message : String
  deriving DecidableEq, Repr

/-- The `Result` constructor. If `'payload' in args` the instance becomes
the success variant storing `args.payload` (the `error` and `message`
fields keep their initial values); otherwise, if `'error' in args` is
false the constructor throws `'To create a failed Result provide error'`;
otherwise the failure variant stores `args.error` and either the provided
message or the default `'No message has been provided'`. -/
def Result.construct (args : ResultArgs) : Except JSError ResultState :=
  match args.payload? with
  | some p => Except.ok ⟨true, p, JSValue.undef, ""⟩
  | none =>
    match args.error? with
    | none => Except.error ⟨"To create a failed Result provide error"⟩
    | some e =>
      match args.message? with
      | some m => Except.ok ⟨false, JSValue.undef, e, m⟩
      | none => Except.ok ⟨false, JSValue.undef, e, "No message has been provided"⟩

/-- The `isOK` getter: returns the private `#isOK` field. -/
def Result.isOKGet (r : ResultState) : Bool :=
  r.isOK

/-- The `payload` getter: throws `'Payload is not available'` when
`!this.#isOK || !this.#payload` (the second disjunct is JS truthiness of
the stored payload), otherwise returns the stored payload. -/
def Result.payloadGet (r : ResultState) : Except JSError JSValue :=
  if !r.isOK || !r.payload.truthy then Except.error ⟨"Payload is not available"⟩
  else Except.ok r.payload

/-- The `error` getter: throws `'No error information is available'` when
`this.#isOK || !this.#error`, otherwise returns the stored error. -/
def Result.errorGet (r : ResultState) : Except JSError JSValue :=
  if r.isOK || !r.error.truthy then Except.error ⟨"No error information is available"⟩
  else Except.ok r.error

/-- The `message` getter, translated guard for guard: the source tests
`this.#isOK || !this.message`, and `this.message` re-invokes this very
getter (not the private `#message` field). The `fuel` argument is the
remaining call-stack depth; `none` models the stack overflow of the
unbounded recursion. When `#isOK` is true the first disjunct
short-circuits and the getter throws without recursing; otherwise the
recursive call is evaluated, its exception (if any) propagates, its
string result (if any) is tested for emptiness, and only then is
`#message` returned. -/
def Result.messageGet : Nat → ResultState → Option (Except JSError String)
  | 0, _ => none
  | fuel + 1, r =>
    if r.isOK then some (Except.error ⟨"No error message is available"⟩)
    else
      match Result.messageGet fuel r with
      | none => none
      | some (Except.error e) => some (Except.error e)
      | some (Except.ok m) =>
        if m = "" then some (Except.error ⟨"No error message is available"⟩)
        else some (Except.ok r.message)

/-- The private fields of a constructed `Option` instance. -/
structure OptionState where
  isSome : Bool
  payload : JSValue
  deriving DecidableEq, Repr

/-- The `Option` constructor: stores the value unconditionally and sets
`#isSome` (initially false) to true exactly when the value is neither
`undefined` nor `null`. -/
def Option.construct (payload : JSValue) : OptionState :=
  ⟨!payload.isAbsent, payload⟩

/-- The `isSome` getter: returns the private `#isSome` field. -/
def Option.isSomeGet (o : OptionState) : Bool :=
  o.isSome

/-- The `payload` getter of `Option`: throws
`'No payload provided or null'` when `!this.#isSome`, otherwise returns
the stored value. -/
def Option.payloadGet (o : OptionState) : Except JSError JSValue :=
  if !o.isSome then Except.error ⟨"No payload provided or null"⟩
  else Except.ok o.payload

/-- The `unwrap()` method: returns the stored value unconditionally. -/
def Option.unwrap (o : OptionState) : JSValue :=
  o.payload

/- State-threading forms of the accessors. Every getter and method body in
the source reads private fields and performs no assignment, so each
accessor, run on an instance, returns its value together with the fields
exactly as they were; these definitions make that threading explicit so
that immutability and idempotence are statable. -/

/-- `isOK` access as a state transformer. -/
def Result.isOKAccess (r : ResultState) : Bool × ResultState :=
  (Result.isOKGet r, r)

/-- `payload` access as a state transformer. -/
def Result.payloadAccess (r : ResultState) : Except JSError JSValue × ResultState :=
  (Result.payloadGet r, r)

/-- `error` access as a state transformer. -/
def Result.errorAccess (r : ResultState) : Except JSError JSValue × ResultState :=
  (Result.errorGet r, r)

/-- `message` access as a state transformer. -/
def Result.messageAccess (fuel : Nat) (r : ResultState) :
    Option (Except JSError String) × ResultState :=
  (Result.messageGet fuel r, r)

/-- `isSome` access as a state transformer. -/
def Option.isSomeAccess (o : OptionState) : Bool × OptionState :=
  (Option.isSomeGet o, o)

/-- `payload` access of `Option` as a state transformer. -/
def Option.payloadAccess (o : OptionState) : Except JSError JSValue × OptionState :=
  (Option.payloadGet o, o)

/-- `unwrap` access as a state transformer. -/
def Option.unwrapAccess (o : OptionState) : JSValue × OptionState :=
  (Option.unwrap o, o)

/-- On a failure-variant instance the `message` getter never returns, for
any stack depth: its guard re-enters the getter itself. -/
theorem Result.messageGet_none (r : ResultState) (h : r.isOK = false) :
    ∀ fuel, Result.messageGet fuel r = none := by
  intro fuel
  induction fuel with
  | zero => rfl
  | succ n ih => simp [Result.messageGet, h, ih]

/-- C1 counterexample: `Result.construct({payload: 0})` succeeds and sets
`isOK` to true, but `payload()` throws `'Payload is not available'`,
because the getter also tests JS truthiness of the stored payload; so the
claim that `payload()` returns every success value, falsy values such as
0 included, fails at `p = 0`. -/
theorem C1_falsy_payload_counterexample :
    Result.construct ⟨some (JSValue.num 0), none, none⟩ =
      Except.ok ⟨true, JSValue.num 0, JSValue.undef, ""⟩ ∧
    Result.payloadGet ⟨true, JSValue.num 0, JSValue.undef, ""⟩ =
      Except.error ⟨"Payload is not available"⟩ :=
  ⟨rfl, rfl⟩

/-- C1 (amended): every success construction yields an instance with
`isOK` true, and `payload()` returns the stored value exactly when that
value is truthy; for a falsy payload (such as 0, the empty string, or
false) it instead throws `'Payload is not available'`. -/
theorem C1_success_payload (p : JSValue) (e? : Option JSValue) (m? : Option String) :
    Result.construct ⟨some p, e?, m?⟩ = Except.ok ⟨true, p, JSValue.undef, ""⟩ ∧
    Result.payloadGet ⟨true, p, JSValue.undef, ""⟩ =
      (if p.truthy then Except.ok p else Except.error ⟨"Payload is not available"⟩) := by
  refine ⟨rfl, ?_⟩
  cases h : p.truthy <;> simp [Result.payloadGet, h]

/-- C2: the constructor does store the provided message, and the default
`'No message has been provided'` when none is provided, but the `message`
getter never returns on a failure-variant instance at any stack depth,
because its guard evaluates `this.message` (the getter itself, recursing
unboundedly) instead of the private `#message` field; the claimed
`message() == m` behaviour is therefore unreachable. -/
theorem C2_message_getter_diverges :
    Result.construct ⟨none, some (JSValue.num 1), some "timeout"⟩ =
      Except.ok ⟨false, JSValue.undef, JSValue.num 1, "timeout"⟩ ∧
    Result.construct ⟨none, some (JSValue.num 1), none⟩ =
      Except.ok ⟨false, JSValue.undef, JSValue.num 1, "No message has been provided"⟩ ∧
    ∀ fuel, Result.messageGet fuel ⟨false, JSValue.undef, JSValue.num 1, "timeout"⟩ = none := by
  refine ⟨rfl, rfl, ?_⟩
  exact Result.messageGet_none _ rfl

/-- C3 counterexample: `Result.construct({error: 0, message: "m"})`
succeeds with `isOK` false, but `error()` throws, because the getter also
tests JS truthiness of the stored error; so the claim that `error()`
returns every error value, falsy values included, fails at `e = 0`. -/
theorem C3_falsy_error_counterexample :
    Result.construct ⟨none, some (JSValue.num 0), some "m"⟩ =
      Except.ok ⟨false, JSValue.undef, JSValue.num 0, "m"⟩ ∧
    Result.errorGet ⟨false, JSValue.undef, JSValue.num 0, "m"⟩ =
      Except.error ⟨"No error information is available"⟩ :=
  ⟨rfl, rfl⟩

/-- C3 (amended): every `{error: e, message: m}` construction yields an
instance with `isOK` false, and `error()` returns the stored error exactly
when it is truthy; for a falsy error value (such as 0 or the empty string)
it instead throws `'No error information is available'`. -/
theorem C3_failure_error (e : JSValue) (m : String) :
    Result.construct ⟨none, some e, some m⟩ = Except.ok ⟨false, JSValue.undef, e, m⟩ ∧
    Result.errorGet ⟨false, JSValue.undef, e, m⟩ =
      (if e.truthy then Except.ok e else Except.error ⟨"No error information is available"⟩) := by
  refine ⟨rfl, ?_⟩
  cases h : e.truthy <;> simp [Result.errorGet, h]

/-- C4: on a failure-variant instance `payload()` throws
`'Payload is not available'`; on a success-variant instance `error()`
throws `'No error information is available'` and `message()` throws
`'No error message is available'` (with at least one stack frame, since
the success guard short-circuits before the recursion); each access is a
single synchronous step returning the thrown error and leaves the
instance fields unchanged. -/
theorem C4_wrong_variant_access (r : ResultState) :
    (r.isOK = false →
      Result.payloadAccess r = (Except.error ⟨"Payload is not available"⟩, r)) ∧
    (r.isOK = true →
      Result.errorAccess r = (Except.error ⟨"No error information is available"⟩, r) ∧
      ∀ fuel, Result.messageAccess (fuel + 1) r =
        (some (Except.error ⟨"No error message is available"⟩), r)) := by
  constructor
  · intro h
    simp [Result.payloadAccess, Result.payloadGet, h]
  · intro h
    exact ⟨by simp [Result.errorAccess, Result.errorGet, h],
      fun fuel => by simp [Result.messageAccess, Result.messageGet, h]⟩

/-- C4 witness: wrong-variant access throws on a concrete failure
instance and a concrete success instance. -/
theorem C4_wrong_variant_access_witness :
    Result.payloadAccess ⟨false, JSValue.undef, JSValue.num 1, "m"⟩ =
      (Except.error ⟨"Payload is not available"⟩,
        ⟨false, JSValue.undef, JSValue.num 1, "m"⟩) ∧
    Result.errorAccess ⟨true, JSValue.num 1, JSValue.undef, ""⟩ =
      (Except.error ⟨"No error information is available"⟩,
        ⟨true, JSValue.num 1, JSValue.undef, ""⟩) :=
  ⟨(C4_wrong_variant_access ⟨false, JSValue.undef, JSValue.num 1, "m"⟩).1 rfl,
    ((C4_wrong_variant_access ⟨true, JSValue.num 1, JSValue.undef, ""⟩).2 rfl).1⟩

/-- C5: construction throws `'To create a failed Result provide error'`
exactly when the argument object has neither a `payload` nor an `error`
property, and succeeds for every argument that has at least one of them. -/
theorem C5_construction_domain (args : ResultArgs) :
    (args.payload? = none ∧ args.error? = none →
      Result.construct args = Except.error ⟨"To create a failed Result provide error"⟩) ∧
    (args.payload? ≠ none ∨ args.error? ≠ none →
      ∃ r, Result.construct args = Except.ok r) := by
  obtain ⟨p?, e?, m?⟩ := args
  cases p? <;> cases e? <;> cases m? <;> simp [Result.construct]

/-- C5 witness: the empty argument object throws, and a payload-bearing
argument object constructs successfully. -/
theorem C5_construction_domain_witness :
    Result.construct ⟨none, none, none⟩ =
      Except.error ⟨"To create a failed Result provide error"⟩ ∧
    ∃ r, Result.construct ⟨some (JSValue.str "ok"), none, none⟩ = Except.ok r :=
  ⟨(C5_construction_domain ⟨none, none, none⟩).1 ⟨rfl, rfl⟩,
    (C5_construction_domain ⟨some (JSValue.str "ok"), none, none⟩).2
      (Or.inl (Option.some_ne_none _))⟩

/-- C6: for every value that is neither `undefined` nor `null` (falsy
values such as 0, the empty string, or false included), the constructed
`Option` has `isSome` true, `payload()` returns the value without
throwing, and `unwrap()` returns the value. -/
theorem C6_option_present (v : JSValue) (h : v.isAbsent = false) :
    Option.isSomeGet (Option.construct v) = true ∧
    Option.payloadGet (Option.construct v) = Except.ok v ∧
    Option.unwrap (Option.construct v) = v := by
  refine ⟨?_, ?_, rfl⟩ <;>
    simp [Option.construct, Option.isSomeGet, Option.payloadGet, h]

/-- C6 witness: the falsy but present value 0 is Some, its payload is
returned, and unwrap returns it. -/
theorem C6_option_present_witness :
    Option.isSomeGet (Option.construct (JSValue.num 0)) = true ∧
    Option.payloadGet (Option.construct (JSValue.num 0)) = Except.ok (JSValue.num 0) ∧
    Option.unwrap (Option.construct (JSValue.num 0)) = JSValue.num 0 :=
  C6_option_present (JSValue.num 0) rfl

/-- C7: for an absent-equivalent input (`undefined` or `null`) the
constructed `Option` has `isSome` false and `payload()` throws
`'No payload provided or null'`; `unwrap()` returns the original input —
the stored value — for every input, present or absent, and never throws
(it is a total function in this model). -/
theorem C7_option_absent (v : JSValue) :
    (v.isAbsent = true →
      Option.isSomeGet (Option.construct v) = false ∧
      Option.payloadGet (Option.construct v) =
        Except.error ⟨"No payload provided or null"⟩) ∧
    Option.unwrap (Option.construct v) = v := by
  refine ⟨fun h => ⟨?_, ?_⟩, rfl⟩ <;>
    simp [Option.construct, Option.isSomeGet, Option.payloadGet, h]

/-- C7 witness: `Option.construct(null)` is None, its payload access
throws, and unwrap returns null. -/
theorem C7_option_absent_witness :
    (Option.isSomeGet (Option.construct JSValue.null) = false ∧
      Option.payloadGet (Option.construct JSValue.null) =
        Except.error ⟨"No payload provided or null"⟩) ∧
    Option.unwrap (Option.construct JSValue.null) = JSValue.null :=
  ⟨(C7_option_absent JSValue.null).1 rfl, (C7_option_absent JSValue.null).2⟩

/-- C8: every accessor of both wrappers leaves the instance fields exactly
as they were — no getter or method body in the source performs an
assignment — so a repeated call to any accessor returns the identical
result and the identical state, and `isOK` / `isSome` never change under
any access. -/
theorem C8_accessors_idempotent (r : ResultState) (o : OptionState) (fuel : Nat) :
    (Result.isOKAccess r).2 = r ∧
    (Result.payloadAccess r).2 = r ∧
    (Result.errorAccess r).2 = r ∧
    (Result.messageAccess fuel r).2 = r ∧
    (Option.isSomeAccess o).2 = o ∧
    (Option.payloadAccess o).2 = o ∧
    (Option.unwrapAccess o).2 = o ∧
    Result.isOKAccess (Result.isOKAccess r).2 = Result.isOKAccess r ∧
    Result.payloadAccess (Result.payloadAccess r).2 = Result.payloadAccess r ∧
    Result.errorAccess (Result.errorAccess r).2 = Result.errorAccess r ∧
    Result.messageAccess fuel (Result.messageAccess fuel r).2 = Result.messageAccess fuel r ∧
    Option.isSomeAccess (Option.isSomeAccess o).2 = Option.isSomeAccess o ∧
    Option.payloadAccess (Option.payloadAccess o).2 = Option.payloadAccess o ∧
    Option.unwrapAccess (Option.unwrapAccess o).2 = Option.unwrapAccess o ∧
    ((Result.payloadAccess r).2).isOK = r.isOK ∧
    ((Option.payloadAccess o).2).isSome = o.isSome :=
  ⟨rfl, rfl, rfl, rfl, rfl, rfl, rfl, rfl, rfl, rfl, rfl, rfl, rfl, rfl, rfl, rfl⟩

/-- C9 counterexample: `Result.construct({payload: undefined})` succeeds
(the `'payload' in args` check is a presence check, true even for an
`undefined` value), producing a success-variant instance whose stored
payload is absent-equivalent and whose error field is also absent —
neither side of the claimed exactly-one invariant is populated, and this
Success instance does not hold a non-absent payload. -/
theorem C9_success_absent_payload_counterexample :
    Result.construct ⟨some JSValue.undef, none, none⟩ =
      Except.ok ⟨true, JSValue.undef, JSValue.undef, ""⟩ ∧
    JSValue.isAbsent JSValue.undef = true ∧
    Result.payloadGet ⟨true, JSValue.undef, JSValue.undef, ""⟩ =
      Except.error ⟨"Payload is not available"⟩ :=
  ⟨rfl, rfl, rfl⟩

/-- C9 (amended): every successfully constructed Result stores at most one
of payload/error — the success variant stores exactly the value given as
payload (which may itself be absent-equivalent, e.g. for
`{payload: undefined}`) with the error field left `undefined`, and the
failure variant stores exactly the value given as error with the payload
field left `undefined` — so the payload and error fields are never both
non-absent; the exactly-one-populated reading holds only when the supplied
field value is itself non-absent. -/
theorem C9_variant_fields (args : ResultArgs) (r : ResultState)
    (h : Result.construct args = Except.ok r) :
    (r.isOK = true → r.error = JSValue.undef ∧ r.message = "" ∧
      args.payload? = some r.payload) ∧
    (r.isOK = false → r.payload = JSValue.undef ∧ args.error? = some r.error) ∧
    ¬(r.payload.isAbsent = false ∧ r.error.isAbsent = false) := by
  obtain ⟨p?, e?, m?⟩ := args
  cases p? with
  | some p =>
    simp [Result.construct] at h
    subst h
    simp [JSValue.isAbsent]
  | none =>
    cases e? with
    | none => simp [Result.construct] at h
    | some e =>
      cases m? <;> simp [Result.construct] at h <;> subst h <;> simp [JSValue.isAbsent]

/-- C9 witness: the amended statement at a concrete failure construction. -/
theorem C9_variant_fields_witness :
    ResultState.payload ⟨false, JSValue.undef, JSValue.str "e", "m"⟩ = JSValue.undef ∧
    ResultArgs.error? ⟨none, some (JSValue.str "e"), some "m"⟩ =
      some (ResultState.error ⟨false, JSValue.undef, JSValue.str "e", "m"⟩) :=
  (C9_variant_fields ⟨none, some (JSValue.str "e"), some "m"⟩
    ⟨false, JSValue.undef, JSValue.str "e", "m"⟩ rfl).2.1 rfl

/-- C10: when the argument object carries both a `payload` and an `error`
property, the constructor takes the success branch: `isOK` is true, the
given payload is stored, the error and message fields keep their initial
values (`undefined` and the empty string), and both `error()` and
`message()` subsequently throw. -/
theorem C10_payload_field_wins (p e : JSValue) (m? : Option String) :
    Result.construct ⟨some p, some e, m?⟩ = Except.ok ⟨true, p, JSValue.undef, ""⟩ ∧
    Result.errorGet ⟨true, p, JSValue.undef, ""⟩ =
      Except.error ⟨"No error information is available"⟩ ∧
    ∀ fuel, Result.messageGet (fuel + 1) ⟨true, p, JSValue.undef, ""⟩ =
      some (Except.error ⟨"No error message is available"⟩) := by
  refine ⟨rfl, by simp [Result.errorGet], fun fuel => by simp [Result.messageGet]⟩
